import Mathlib

/-!
Verification development for the A1CE course recommender core.

The Go source is shallowly embedded: `float64` values become `ℚ`,
Go maps (`map[string]float64`, `map[string]int`) become association
lists whose keys are unique (Go maps guarantee key uniqueness; where a
theorem needs that fact it appears as a `Nodup` hypothesis), Go slices
become `List`, and fallible operations become `Except`.  Counter maps
(`map[string]int` with `m[k]++`) and accumulator maps
(`map[string]float64` with `m[k] += v`) are embedded as association
lists updated in place with `countBump` / `mapAdd`, reading absent keys
as zero exactly as Go does.
-/

namespace A1CE

/-- Go `Course` from models.go (union of the snapshot variants; fields not
touched by any scoring, filtering or optimizing function are omitted). -/
structure Course where
  CourseID : String
  TemplateID : String
  CourseCode : String
  CourseName : String
  CreditHours : ℚ
  SubdomainID : String
  SubdomainName : String
  RequiredCompetencies : List (String × ℚ)
  TeachesCompetencies : List String
  Prerequisites : List String
  SemesterOffered : String
deriving Repr, DecidableEq

/-- Go `StudentProfile` from models.go.  `DistributionCredits` holds the
earned credit count per subdomain (the snapshots that store an
`A1CECredit` record only ever read its `Earned` field, via
`float64(v.Earned)`); `TotalCredits` likewise holds the earned total. -/
structure StudentProfile where
  StudentID : String
  CurriculumVersion : Int
  Competencies : List (String × ℚ)
  CompletedCourses : List String
  DistributionCredits : List (String × ℚ)
  RequiredCompetencies : List String
  TotalCredits : ℚ
  InterestWeights : List (String × ℚ)
  MaxCreditLoad : ℚ
  Semester : String
deriving Repr, DecidableEq

/-- Go `CurriculumRequirements` from models.go. -/
structure CurriculumRequirements where
  CurriculumVersion : Int
  RequiredCompetencies : List String
  DistributionRequirements : List (String × ℚ)
  TotalCreditsRequired : ℚ
deriving Repr, DecidableEq

/-- Go `RecommendedCourse` from models.go (`DisplayCourse`, present in only
one snapshot, is omitted: no claim touches it). -/
structure RecommendedCourse where
  Course : Course
  FitScore : ℚ
  MatchedCompetencies : List String
  MissingCompetencies : List String
  CompetencyMatchScore : ℚ
  InterestAlignmentScore : ℚ
  ProgramProgressScore : ℚ
  Reason : String
deriving Repr, DecidableEq

/-- Go `EvaluationMetrics` from models.go. -/
structure EvaluationMetrics where
  GoodnessScore : ℚ
  SkillCoveragePercentage : ℚ
  PrerequisiteCompliance : ℚ
  ProgramProgressFit : ℚ
deriving Repr, DecidableEq

/-- Go `RecommendationFilters` from models.go (time preferences unused). -/
structure RecommendationFilters where
  PreferredSubdomains : List String
  ExcludeCourses : List String
deriving Repr, DecidableEq

/-- Go `RecommendationRequest` from models.go. -/
structure RecommendationRequest where
  StudentID : String
  Semester : String
  MaxCreditLoad : ℚ
  MaxSets : Int
  Constraints : Option RecommendationFilters
deriving Repr, DecidableEq

/-- Go `RecommendationSet` from models.go (generation metadata carries only
wall-clock data and is omitted). -/
structure RecommendationSet where
  StudentID : String
  Semester : String
  RecommendedSet : List RecommendedCourse
  TotalCredits : ℚ
  Metrics : EvaluationMetrics
  DistributionCoverage : List (String × ℚ)
  Status : String
deriving Repr, DecidableEq

/-- Go `CourseCatalogResponse` from models.go. -/
structure CourseCatalogResponse where
  Status : String
  Semester : String
  CurriculumVersion : Int
  Courses : List Course
deriving Repr, DecidableEq

/-! ### Go helper functions (recommender.go / optimizer_evaluater.go) -/

/-- Go `contains` from service.go: linear scan with `==`. -/
def contains (slice : List String) (item : String) : Bool :=
  slice.any (fun s => s == item)

/-- Go `getMapKeys` from recommender.go: the key list of a Go map. -/
def getMapKeys (m : List (String × ℚ)) : List String :=
  m.map (fun e => e.1)

/-- Go `intersection` from recommender.go: elements of `b` that lie in the
set of elements of `a` (iteration order follows `b`, duplicates kept). -/
def intersection (a b : List String) : List String :=
  b.filter (fun item => contains a item)

/-- Go `difference` from recommender.go: elements of `a` not in the set of
elements of `b`. -/
def difference (a b : List String) : List String :=
  a.filter (fun item => !(contains b item))

/-- Go `mean` from recommender.go: `0` on the empty list. -/
def mean (values : List ℚ) : ℚ :=
  if values.length = 0 then 0 else values.sum / (values.length : ℚ)

/-- Go `unique` from optimizer_evaluater.go: first occurrences, in order. -/
def unique (slice : List String) : List String :=
  slice.foldl (fun acc entry => if acc.contains entry then acc else acc ++ [entry]) []

/-- Go map read `m[k]` returning `none` when the key is absent. -/
def mapLookup : List (String × ℚ) → String → Option ℚ
  | [], _ => none
  | e :: rest, k => if e.1 == k then some e.2 else mapLookup rest k

/-- Go map read `m[k]` on a counter map, `0` when absent. -/
def countLookup (m : List (String × Nat)) (k : String) : Nat :=
  ((m.find? (fun e => e.1 == k)).map (fun e => e.2)).getD 0

/-- Go `m[k]++` on a counter map. -/
def countBump (m : List (String × Nat)) (k : String) : List (String × Nat) :=
  if (m.find? (fun e => e.1 == k)).isSome then
    m.map (fun e => if e.1 == k then (e.1, e.2 + 1) else e)
  else m ++ [(k, 1)]

/-- Go `m[k] += v` on a `float64` accumulator map. -/
def mapAdd (m : List (String × ℚ)) (k : String) (v : ℚ) : List (String × ℚ) :=
  if (m.find? (fun e => e.1 == k)).isSome then
    m.map (fun e => if e.1 == k then (e.1, e.2 + v) else e)
  else m ++ [(k, v)]

/-- Go `containsRecommendedCourse` from optimizer_evaluater.go: membership
by `CourseID`. -/
def containsRecommendedCourse (courses : List RecommendedCourse) (course : RecommendedCourse) : Bool :=
  courses.any (fun c => c.Course.CourseID == course.Course.CourseID)

/-! ### CheckPrerequisites (recommender.go lines 8-25) -/

/-- Go `CheckPrerequisites` from recommender.go: every prerequisite course
id must be in `CompletedCourses`, and every required competency must be
recorded with grade at least the course minimum. -/
def CheckPrerequisites (course : Course) (profile : StudentProfile) : Bool :=
  course.Prerequisites.all (fun prereqID => contains profile.CompletedCourses prereqID) &&
  course.RequiredCompetencies.all (fun e =>
    match mapLookup profile.Competencies e.1 with
    | none => false
    | some studentGrade => decide (e.2 ≤ studentGrade))

theorem contains_eq_mem (slice : List String) (item : String) :
    contains slice item = true ↔ item ∈ slice := by
  unfold contains
  rw [List.any_eq_true]
  constructor
  · rintro ⟨s, hs, hbeq⟩
    rw [beq_iff_eq] at hbeq
    exact hbeq ▸ hs
  · intro h
    exact ⟨item, h, beq_self_eq_true item⟩

theorem checkPrerequisites_iff (course : Course) (profile : StudentProfile) :
    CheckPrerequisites course profile = true ↔
      ((∀ prereqID ∈ course.Prerequisites, prereqID ∈ profile.CompletedCourses) ∧
       (∀ e ∈ course.RequiredCompetencies,
          ∃ studentGrade, mapLookup profile.Competencies e.1 = some studentGrade ∧
            e.2 ≤ studentGrade)) := by
  unfold CheckPrerequisites
  rw [Bool.and_eq_true, List.all_eq_true, List.all_eq_true]
  constructor
  · rintro ⟨h1, h2⟩
    refine ⟨fun p hp => (contains_eq_mem _ _).1 (h1 p hp), fun e he => ?_⟩
    have := h2 e he
    cases hfind : mapLookup profile.Competencies e.1 with
    | none => rw [hfind] at this; exact absurd this (by simp)
    | some g =>
      rw [hfind] at this
      exact ⟨g, rfl, of_decide_eq_true this⟩
  · rintro ⟨h1, h2⟩
    refine ⟨fun p hp => (contains_eq_mem _ _).2 (h1 p hp), fun e he => ?_⟩
    obtain ⟨g, hg, hle⟩ := h2 e he
    rw [hg]
    exact decide_eq_true hle

/-- C3. `CheckPrerequisites` holds exactly when every listed
prerequisite id is among the completed courses and every required
competency is recorded in the profile with grade at least the course's
minimum (an absent competency falsifies it); being a total `Bool`-valued
function of its two arguments, it is a pure predicate that cannot fail. -/
theorem checkPrerequisites_spec (course : Course) (profile : StudentProfile) :
    CheckPrerequisites course profile = true ↔
      ((∀ prereqID ∈ course.Prerequisites, prereqID ∈ profile.CompletedCourses) ∧
       (∀ e ∈ course.RequiredCompetencies,
          ∃ studentGrade, mapLookup profile.Competencies e.1 = some studentGrade ∧
            e.2 ≤ studentGrade)) :=
  checkPrerequisites_iff course profile

/-! ### C8: monotonicity of CheckPrerequisites -/

/-- Appending one course id to the profile's completed list (the Go
mutation `profile.CompletedCourses = append(profile.CompletedCourses, id)`). -/
def addCompleted (profile : StudentProfile) (courseID : String) : StudentProfile :=
  { profile with CompletedCourses := profile.CompletedCourses ++ [courseID] }

/-- Overwriting the grade recorded for one competency (the Go mutation
`profile.Competencies[comp] = g`). -/
def setGrade (profile : StudentProfile) (comp : String) (g : ℚ) : StudentProfile :=
  { profile with Competencies :=
      profile.Competencies.map (fun e => if e.1 == comp then (e.1, g) else e) }

theorem mapLookup_setGrade (m : List (String × ℚ)) (comp k : String) (g : ℚ) :
    mapLookup (m.map (fun e => if e.1 == comp then (e.1, g) else e)) k
      = (mapLookup m k).map (fun v => if k == comp then g else v) := by
  induction m with
  | nil => rfl
  | cons e rest ih =>
    simp only [List.map_cons]
    by_cases hc : e.1 = comp
    · subst hc
      by_cases hk : e.1 = k
      · subst hk
        simp [mapLookup]
      · simp [mapLookup, hk, beq_iff_eq] at ih ⊢
        exact ih
    · by_cases hk : e.1 = k
      · subst hk
        simp [mapLookup, hc, beq_iff_eq]
      · simp [mapLookup, hc, hk, beq_iff_eq] at ih ⊢
        exact ih

/-- C8. `CheckPrerequisites` is monotone in the profile: whenever it
holds it still holds after appending *any* course id to the completed
list (no condition on the profile's competencies, which may be empty),
and after raising the grade of any *recorded* competency (recordedness
and the old-to-new ordering are what "raising a recorded grade"
means). -/
theorem checkPrerequisites_monotone (course : Course) (profile : StudentProfile) :
    (∀ newCourse : String, CheckPrerequisites course profile = true →
      CheckPrerequisites course (addCompleted profile newCourse) = true) ∧
    (∀ (comp : String) (g0 g1 : ℚ),
      mapLookup profile.Competencies comp = some g0 → g0 ≤ g1 →
      CheckPrerequisites course profile = true →
      CheckPrerequisites course (setGrade profile comp g1) = true) := by
  constructor
  · intro newCourse h
    rw [checkPrerequisites_iff] at h
    obtain ⟨h1, h2⟩ := h
    rw [checkPrerequisites_iff]
    refine ⟨fun p hp => ?_, fun e he => ?_⟩
    · exact List.mem_append_left _ (h1 p hp)
    · exact h2 e he
  · intro comp g0 g1 hrec hraise h
    rw [checkPrerequisites_iff] at h
    obtain ⟨h1, h2⟩ := h
    rw [checkPrerequisites_iff]
    refine ⟨fun p hp => h1 p hp, fun e he => ?_⟩
    obtain ⟨sg, hsg, hle⟩ := h2 e he
    show ∃ studentGrade,
        mapLookup (profile.Competencies.map (fun x => if x.1 == comp then (x.1, g1) else x)) e.1
          = some studentGrade ∧ e.2 ≤ studentGrade
    rw [mapLookup_setGrade, hsg]
    by_cases hec : e.1 == comp
    · have hec' : e.1 = comp := by rwa [beq_iff_eq] at hec
      have : sg = g0 := by
        rw [hec'] at hsg
        rw [hsg] at hrec
        exact Option.some.inj hrec
      refine ⟨g1, by simp [hec], ?_⟩
      calc e.2 ≤ sg := hle
        _ = g0 := this
        _ ≤ g1 := hraise
    · exact ⟨sg, by simp [hec], hle⟩

/-! ### Fit scoring engine (recommender.go lines 28-147) -/

/-- One iteration of the grade-matching loop in
`CalculateCompetencyMatchScore`: `1.0` when the student's grade reaches
the course minimum, else `studentGrade / requiredGrade` (a key absent
from a Go map reads as `0`). -/
def gradeContribution (course : Course) (profile : StudentProfile) (comp : String) : ℚ :=
  let requiredGrade := (mapLookup course.RequiredCompetencies comp).getD 0
  let studentGrade := (mapLookup profile.Competencies comp).getD 0
  if requiredGrade ≤ studentGrade then 1 else studentGrade / requiredGrade

/-- The `matched` local of `CalculateCompetencyMatchScore`: required
competencies the student already has (identical to
`GetMatchedCompetencies`). -/
def matchedOf (course : Course) (profile : StudentProfile) : List String :=
  intersection (getMapKeys course.RequiredCompetencies) (getMapKeys profile.Competencies)

/-- The `prereqSatisfaction` local of `CalculateCompetencyMatchScore`:
`|matched| / |required|`, `1.0` when the course requires nothing. -/
def prereqSatisfactionOf (course : Course) (profile : StudentProfile) : ℚ :=
  if 0 < (getMapKeys course.RequiredCompetencies).length then
    ((matchedOf course profile).length : ℚ) / ((getMapKeys course.RequiredCompetencies).length : ℚ)
  else 1

/-- The `skillGapFill` local of `CalculateCompetencyMatchScore`:
`|taught \ known| / |taught|`, `0.0` when the course teaches nothing. -/
def skillGapFillOf (course : Course) (profile : StudentProfile) : ℚ :=
  if 0 < course.TeachesCompetencies.length then
    ((difference course.TeachesCompetencies (getMapKeys profile.Competencies)).length : ℚ) /
      (course.TeachesCompetencies.length : ℚ)
  else 0

/-- The `gradeMatchScore` local of `CalculateCompetencyMatchScore`: the
average grade contribution over matched competencies, `1.0` when none
matched. -/
def gradeMatchScoreOf (course : Course) (profile : StudentProfile) : ℚ :=
  if 0 < (matchedOf course profile).length then
    ((matchedOf course profile).map (gradeContribution course profile)).sum /
      ((matchedOf course profile).length : ℚ)
  else 1

/-- Go `CalculateCompetencyMatchScore` from recommender.go. -/
def CalculateCompetencyMatchScore (course : Course) (profile : StudentProfile) : ℚ :=
  0.4 * prereqSatisfactionOf course profile + 0.3 * gradeMatchScoreOf course profile +
    0.3 * skillGapFillOf course profile

/-- Go `CalculateInterestScore` from recommender.go: the interest weight of
the course's subdomain, `0.1` by default, clamped to at most `1`. -/
def CalculateInterestScore (course : Course) (profile : StudentProfile) : ℚ :=
  let baseInterest := (mapLookup profile.InterestWeights course.SubdomainID).getD 0.1
  if 1 < baseInterest then 1 else baseInterest

/-- The `missingRequired` local of `CalculateProgramProgressScore`:
graduation-required competencies the student does not yet hold. -/
def missingRequiredOf (profile : StudentProfile) (requirements : CurriculumRequirements) : List String :=
  difference requirements.RequiredCompetencies (getMapKeys profile.Competencies)

/-- The `requiredCompScore` local of `CalculateProgramProgressScore`:
fraction of still-missing required competencies this course teaches. -/
def requiredCompScoreOf (course : Course) (profile : StudentProfile)
    (requirements : CurriculumRequirements) : ℚ :=
  if 0 < (missingRequiredOf profile requirements).length then
    ((intersection (missingRequiredOf profile requirements) course.TeachesCompetencies).length : ℚ) /
      ((missingRequiredOf profile requirements).length : ℚ)
  else 0

/-- The `distributionScore` local of `CalculateProgramProgressScore`:
`min(1, credits/gap) * (gap/required)` while the subdomain's credit gap
is open, `0.2` if it is closed, `0.3` for an elective subdomain. -/
def distributionScoreOf (course : Course) (profile : StudentProfile)
    (requirements : CurriculumRequirements) : ℚ :=
  let requiredCredits := (mapLookup requirements.DistributionRequirements course.SubdomainID).getD 0
  let completedCredits := (mapLookup profile.DistributionCredits course.SubdomainID).getD 0
  if 0 < requiredCredits then
    (let creditGap := max 0 (requiredCredits - completedCredits)
     if 0 < creditGap then
       min 1 (course.CreditHours / creditGap) * (creditGap / requiredCredits)
     else 0.2)
  else 0.3

/-- The `totalProgress` local of `CalculateProgramProgressScore`. -/
def totalProgressOf (profile : StudentProfile) (requirements : CurriculumRequirements) : ℚ :=
  profile.TotalCredits / requirements.TotalCreditsRequired

/-- The `urgencyMultiplier` local of `CalculateProgramProgressScore`. -/
def urgencyMultiplierOf (profile : StudentProfile) (requirements : CurriculumRequirements) : ℚ :=
  if totalProgressOf profile requirements < 0.5 then 1.2
  else if totalProgressOf profile requirements < 0.75 then 1.1
  else 1

/-- Go `CalculateProgramProgressScore` from recommender.go. -/
def CalculateProgramProgressScore (course : Course) (profile : StudentProfile)
    (requirements : CurriculumRequirements) : ℚ :=
  let progressScore :=
    (0.5 * requiredCompScoreOf course profile requirements +
      0.4 * distributionScoreOf course profile requirements +
      0.1 * (1 - totalProgressOf profile requirements)) * urgencyMultiplierOf profile requirements
  if 1 < progressScore then 1 else progressScore

/-- Go `GetMatchedCompetencies` from recommender.go. -/
def GetMatchedCompetencies (course : Course) (profile : StudentProfile) : List String :=
  intersection (getMapKeys course.RequiredCompetencies) (getMapKeys profile.Competencies)

/-- Go `GetMissingCompetencies` from recommender.go. -/
def GetMissingCompetencies (course : Course) (profile : StudentProfile) : List String :=
  difference (getMapKeys course.RequiredCompetencies) (getMapKeys profile.Competencies)

/-! ### C2: score bounds -/

theorem mapLookup_mem (m : List (String × ℚ)) (k : String) (v : ℚ)
    (h : mapLookup m k = some v) : (k, v) ∈ m := by
  induction m with
  | nil => simp [mapLookup] at h
  | cons e rest ih =>
    unfold mapLookup at h
    by_cases hk : e.1 == k
    · rw [if_pos hk] at h
      have h1 : e.2 = v := Option.some.inj h
      have h2 : e.1 = k := beq_iff_eq.mp hk
      have : (k, v) = e := by
        rw [← h1, ← h2]
      rw [this]
      exact List.mem_cons_self e rest
    · rw [if_neg hk] at h
      exact List.mem_cons_of_mem _ (ih h)

theorem mapLookup_getD_nonneg (m : List (String × ℚ)) (k : String) (d : ℚ)
    (hd : 0 ≤ d) (hm : ∀ e ∈ m, 0 ≤ e.2) : 0 ≤ (mapLookup m k).getD d := by
  cases hfind : mapLookup m k with
  | none => simpa using hd
  | some v =>
    have := hm (k, v) (mapLookup_mem m k v hfind)
    simpa using this

theorem intersection_length_le (a b : List String) (hb : b.Nodup) :
    (intersection a b).length ≤ a.length := by
  classical
  have hnd : (intersection a b).Nodup := List.Nodup.filter _ hb
  have hsub : intersection a b ⊆ a := by
    intro x hx
    unfold intersection at hx
    exact (contains_eq_mem a x).1 (List.mem_filter.1 hx).2
  calc (intersection a b).length = (intersection a b).toFinset.card :=
        (List.toFinset_card_of_nodup hnd).symm
    _ ≤ a.toFinset.card := Finset.card_le_card (fun x hx =>
        List.mem_toFinset.2 (hsub (List.mem_toFinset.1 hx)))
    _ ≤ a.length := a.toFinset_card_le

theorem ratio_bounds (m n : ℕ) (hn : 0 < n) (hmn : m ≤ n) :
    0 ≤ (m : ℚ) / (n : ℚ) ∧ (m : ℚ) / (n : ℚ) ≤ 1 := by
  have hn' : (0 : ℚ) < (n : ℚ) := by exact_mod_cast hn
  refine ⟨div_nonneg (by positivity) hn'.le, (div_le_one hn').2 ?_⟩
  exact_mod_cast hmn

theorem gradeContribution_bounds (course : Course) (profile : StudentProfile) (comp : String)
    (hg : ∀ e ∈ profile.Competencies, 0 ≤ e.2) :
    0 ≤ gradeContribution course profile comp ∧ gradeContribution course profile comp ≤ 1 := by
  unfold gradeContribution
  have hsg : 0 ≤ (mapLookup profile.Competencies comp).getD 0 :=
    mapLookup_getD_nonneg _ _ _ le_rfl hg
  set rg := (mapLookup course.RequiredCompetencies comp).getD 0 with hrg
  set sg := (mapLookup profile.Competencies comp).getD 0 with hsgdef
  by_cases h : rg ≤ sg
  · rw [if_pos h]
    norm_num
  · rw [if_neg h]
    push_neg at h
    have hrgpos : 0 < rg := lt_of_le_of_lt hsg h
    exact ⟨div_nonneg hsg hrgpos.le, (div_le_one hrgpos).2 h.le⟩

theorem prereqSatisfaction_bounds (course : Course) (profile : StudentProfile)
    (hnd : (getMapKeys profile.Competencies).Nodup) :
    0 ≤ prereqSatisfactionOf course profile ∧ prereqSatisfactionOf course profile ≤ 1 := by
  unfold prereqSatisfactionOf
  by_cases h : 0 < (getMapKeys course.RequiredCompetencies).length
  · rw [if_pos h]
    exact ratio_bounds _ _ h (intersection_length_le _ _ hnd)
  · rw [if_neg h]
    norm_num

theorem skillGapFill_bounds (course : Course) (profile : StudentProfile) :
    0 ≤ skillGapFillOf course profile ∧ skillGapFillOf course profile ≤ 1 := by
  unfold skillGapFillOf
  by_cases h : 0 < course.TeachesCompetencies.length
  · rw [if_pos h]
    exact ratio_bounds _ _ h (List.length_filter_le _ _)
  · rw [if_neg h]
    norm_num

theorem gradeMatchScore_bounds (course : Course) (profile : StudentProfile)
    (hg : ∀ e ∈ profile.Competencies, 0 ≤ e.2) :
    0 ≤ gradeMatchScoreOf course profile ∧ gradeMatchScoreOf course profile ≤ 1 := by
  unfold gradeMatchScoreOf
  by_cases h : 0 < (matchedOf course profile).length
  · rw [if_pos h]
    have hlen : (0 : ℚ) < ((matchedOf course profile).length : ℚ) := by exact_mod_cast h
    have hlist : ∀ x ∈ (matchedOf course profile).map (gradeContribution course profile),
        0 ≤ x ∧ x ≤ 1 := by
      intro x hx
      obtain ⟨c, _, hcx⟩ := List.mem_map.1 hx
      exact hcx ▸ gradeContribution_bounds course profile c hg
    have h0 : 0 ≤ ((matchedOf course profile).map (gradeContribution course profile)).sum :=
      List.sum_nonneg (fun x hx => (hlist x hx).1)
    have h1 : ((matchedOf course profile).map (gradeContribution course profile)).sum ≤
        ((matchedOf course profile).length : ℚ) := by
      have := List.sum_le_card_nsmul
        ((matchedOf course profile).map (gradeContribution course profile)) 1
        (fun x hx => (hlist x hx).2)
      simpa [nsmul_eq_mul] using this
    exact ⟨div_nonneg h0 hlen.le, (div_le_one hlen).2 h1⟩
  · rw [if_neg h]
    norm_num

theorem competencyMatch_bounds (course : Course) (profile : StudentProfile)
    (hg : ∀ e ∈ profile.Competencies, 0 ≤ e.2)
    (hnd : (getMapKeys profile.Competencies).Nodup) :
    0 ≤ CalculateCompetencyMatchScore course profile ∧
      CalculateCompetencyMatchScore course profile ≤ 1 := by
  obtain ⟨p0, p1⟩ := prereqSatisfaction_bounds course profile hnd
  obtain ⟨g0, g1⟩ := gradeMatchScore_bounds course profile hg
  obtain ⟨s0, s1⟩ := skillGapFill_bounds course profile
  unfold CalculateCompetencyMatchScore
  constructor <;> nlinarith

theorem interestScore_bounds (course : Course) (profile : StudentProfile)
    (hw : ∀ e ∈ profile.InterestWeights, 0 ≤ e.2) :
    0 ≤ CalculateInterestScore course profile ∧ CalculateInterestScore course profile ≤ 1 := by
  unfold CalculateInterestScore
  have hbase : 0 ≤ (mapLookup profile.InterestWeights course.SubdomainID).getD 0.1 :=
    mapLookup_getD_nonneg _ _ _ (by norm_num) hw
  by_cases h : 1 < (mapLookup profile.InterestWeights course.SubdomainID).getD 0.1
  · rw [if_pos h]
    norm_num
  · rw [if_neg h]
    push_neg at h
    exact ⟨hbase, h⟩

theorem requiredCompScore_nonneg (course : Course) (profile : StudentProfile)
    (requirements : CurriculumRequirements) :
    0 ≤ requiredCompScoreOf course profile requirements := by
  unfold requiredCompScoreOf
  by_cases h : 0 < (missingRequiredOf profile requirements).length
  · rw [if_pos h]
    positivity
  · rw [if_neg h]

theorem distributionScore_nonneg (course : Course) (profile : StudentProfile)
    (requirements : CurriculumRequirements) (hch : 0 ≤ course.CreditHours) :
    0 ≤ distributionScoreOf course profile requirements := by
  unfold distributionScoreOf
  set rc := (mapLookup requirements.DistributionRequirements course.SubdomainID).getD 0 with hrc
  set cc := (mapLookup profile.DistributionCredits course.SubdomainID).getD 0 with hcc
  by_cases h1 : 0 < rc
  · rw [if_pos h1]
    by_cases h2 : 0 < max 0 (rc - cc)
    · rw [if_pos h2]
      have hmin : 0 ≤ min 1 (course.CreditHours / max 0 (rc - cc)) :=
        le_min (by norm_num) (div_nonneg hch h2.le)
      exact mul_nonneg hmin (div_nonneg h2.le h1.le)
    · rw [if_neg h2]
      norm_num
  · rw [if_neg h1]
    norm_num

theorem urgencyMultiplier_pos (profile : StudentProfile) (requirements : CurriculumRequirements) :
    0 < urgencyMultiplierOf profile requirements := by
  unfold urgencyMultiplierOf
  by_cases h1 : totalProgressOf profile requirements < 0.5
  · rw [if_pos h1]
    norm_num
  · rw [if_neg h1]
    by_cases h2 : totalProgressOf profile requirements < 0.75
    · rw [if_pos h2]
      norm_num
    · rw [if_neg h2]
      norm_num

theorem programProgress_bounds (course : Course) (profile : StudentProfile)
    (requirements : CurriculumRequirements)
    (hch : 0 ≤ course.CreditHours)
    (htcr : 0 < requirements.TotalCreditsRequired)
    (htc : profile.TotalCredits ≤ requirements.TotalCreditsRequired) :
    0 ≤ CalculateProgramProgressScore course profile requirements ∧
      CalculateProgramProgressScore course profile requirements ≤ 1 := by
  have hrcs := requiredCompScore_nonneg course profile requirements
  have hds := distributionScore_nonneg course profile requirements hch
  have hurg := urgencyMultiplier_pos profile requirements
  have htp : totalProgressOf profile requirements ≤ 1 := by
    unfold totalProgressOf
    exact (div_le_one htcr).2 htc
  unfold CalculateProgramProgressScore
  set raw := (0.5 * requiredCompScoreOf course profile requirements +
      0.4 * distributionScoreOf course profile requirements +
      0.1 * (1 - totalProgressOf profile requirements)) * urgencyMultiplierOf profile requirements
    with hraw
  have hraw0 : 0 ≤ raw := by
    rw [hraw]
    apply mul_nonneg _ hurg.le
    nlinarith
  by_cases h : 1 < raw
  · rw [if_pos h]
    norm_num
  · rw [if_neg h]
    push_neg at h
    exact ⟨hraw0, h⟩

/-- C2 (amended). Under the domain invariants that Go map data
satisfies in practice — recorded grades and interest weights nonnegative,
course credit hours nonnegative, earned total credits not exceeding the
(positive) required total — each of the three sub-scores and the
combined fit score `0.4·comp + 0.3·interest + 0.3·progress` computed by
`scoreCourses` lies in `[0,1]`.  (The `Nodup` hypothesis records that Go
map keys are unique.) -/
theorem c2_scores_in_unit_interval (course : Course) (profile : StudentProfile)
    (requirements : CurriculumRequirements)
    (hg : ∀ e ∈ profile.Competencies, 0 ≤ e.2)
    (hnd : (getMapKeys profile.Competencies).Nodup)
    (hw : ∀ e ∈ profile.InterestWeights, 0 ≤ e.2)
    (hch : 0 ≤ course.CreditHours)
    (htcr : 0 < requirements.TotalCreditsRequired)
    (htc : profile.TotalCredits ≤ requirements.TotalCreditsRequired) :
    (0 ≤ CalculateCompetencyMatchScore course profile ∧
      CalculateCompetencyMatchScore course profile ≤ 1) ∧
    (0 ≤ CalculateInterestScore course profile ∧
      CalculateInterestScore course profile ≤ 1) ∧
    (0 ≤ CalculateProgramProgressScore course profile requirements ∧
      CalculateProgramProgressScore course profile requirements ≤ 1) ∧
    (0 ≤ 0.4 * CalculateCompetencyMatchScore course profile +
        0.3 * CalculateInterestScore course profile +
        0.3 * CalculateProgramProgressScore course profile requirements ∧
      0.4 * CalculateCompetencyMatchScore course profile +
        0.3 * CalculateInterestScore course profile +
        0.3 * CalculateProgramProgressScore course profile requirements ≤ 1) := by
  obtain ⟨c0, c1⟩ := competencyMatch_bounds course profile hg hnd
  obtain ⟨i0, i1⟩ := interestScore_bounds course profile hw
  obtain ⟨p0, p1⟩ := programProgress_bounds course profile requirements hch htcr htc
  refine ⟨⟨c0, c1⟩, ⟨i0, i1⟩, ⟨p0, p1⟩, ?_, ?_⟩ <;> nlinarith

/-! ### Concrete fixtures used by witnesses and counterexamples -/

/-- A course with every field zero or empty; fixtures override fields. -/
def blankCourse : Course :=
  { CourseID := "", TemplateID := "", CourseCode := "", CourseName := "", CreditHours := 0,
    SubdomainID := "", SubdomainName := "", RequiredCompetencies := [], TeachesCompetencies := [],
    Prerequisites := [], SemesterOffered := "" }

/-- A profile with every field zero or empty; fixtures override fields. -/
def blankProfile : StudentProfile :=
  { StudentID := "S", CurriculumVersion := 1, Competencies := [], CompletedCourses := [],
    DistributionCredits := [], RequiredCompetencies := [], TotalCredits := 0,
    InterestWeights := [], MaxCreditLoad := 0, Semester := "" }

/-- Requirements with no required competencies and a 120-credit degree. -/
def blankRequirements : CurriculumRequirements :=
  { CurriculumVersion := 1, RequiredCompetencies := [], DistributionRequirements := [],
    TotalCreditsRequired := 120 }

/-- A course requiring competency `A` at grade `1`. -/
def negGradeCourse : Course :=
  { blankCourse with CourseID := "CX", RequiredCompetencies := [("A", 1)] }

/-- A profile recording competency `A` with the (out-of-range) grade `-10`. -/
def negGradeProfile : StudentProfile :=
  { blankProfile with Competencies := [("A", -10)] }

/-- C2 (counterexample). The claim quantifies over *every* student
profile; for a profile recording a negative grade the competency-match
sub-score is negative (here `0.4·1 + 0.3·(-10) + 0.3·0 = -2.6`), so the
claimed `[0,1]` bound is false as stated. -/
theorem c2_counterexample : CalculateCompetencyMatchScore negGradeCourse negGradeProfile < 0 := by
  norm_num [CalculateCompetencyMatchScore, prereqSatisfactionOf, gradeMatchScoreOf,
    skillGapFillOf, matchedOf, intersection, difference, contains, getMapKeys,
    gradeContribution, mapLookup, negGradeCourse, negGradeProfile, blankCourse, blankProfile]

/-- C2 (witness). The amended bounds instantiated at a concrete
course, profile and requirements object. -/
theorem c2_witness :
    (0 ≤ CalculateCompetencyMatchScore { blankCourse with CreditHours := 3 }
        { blankProfile with TotalCredits := 30 } ∧
      CalculateCompetencyMatchScore { blankCourse with CreditHours := 3 }
        { blankProfile with TotalCredits := 30 } ≤ 1) ∧
    (0 ≤ CalculateInterestScore { blankCourse with CreditHours := 3 }
        { blankProfile with TotalCredits := 30 } ∧
      CalculateInterestScore { blankCourse with CreditHours := 3 }
        { blankProfile with TotalCredits := 30 } ≤ 1) ∧
    (0 ≤ CalculateProgramProgressScore { blankCourse with CreditHours := 3 }
        { blankProfile with TotalCredits := 30 } blankRequirements ∧
      CalculateProgramProgressScore { blankCourse with CreditHours := 3 }
        { blankProfile with TotalCredits := 30 } blankRequirements ≤ 1) ∧
    (0 ≤ 0.4 * CalculateCompetencyMatchScore { blankCourse with CreditHours := 3 }
          { blankProfile with TotalCredits := 30 } +
        0.3 * CalculateInterestScore { blankCourse with CreditHours := 3 }
          { blankProfile with TotalCredits := 30 } +
        0.3 * CalculateProgramProgressScore { blankCourse with CreditHours := 3 }
          { blankProfile with TotalCredits := 30 } blankRequirements ∧
      0.4 * CalculateCompetencyMatchScore { blankCourse with CreditHours := 3 }
          { blankProfile with TotalCredits := 30 } +
        0.3 * CalculateInterestScore { blankCourse with CreditHours := 3 }
          { blankProfile with TotalCredits := 30 } +
        0.3 * CalculateProgramProgressScore { blankCourse with CreditHours := 3 }
          { blankProfile with TotalCredits := 30 } blankRequirements ≤ 1) :=
  c2_scores_in_unit_interval _ _ _ (by simp [blankProfile])
    (by simp [blankProfile, getMapKeys]) (by simp [blankProfile]) (by norm_num [blankCourse])
    (by norm_num [blankRequirements]) (by norm_num [blankProfile, blankRequirements])

/-- A course whose prerequisites are course `P1` and competency `A` at
grade `2`. -/
def c8Course : Course :=
  { blankCourse with
    CourseID := "C8",
    Prerequisites := ["P1"],
    RequiredCompetencies := [("A", 2)] }

/-- A profile that completed `P1` and holds competency `A` at grade `3`. -/
def c8Profile : StudentProfile :=
  { blankProfile with CompletedCourses := ["P1"], Competencies := [("A", 3)] }

/-- A course whose only prerequisite is the course `P1`. -/
def c8aCourse : Course :=
  { blankCourse with
    CourseID := "C8A",
    Prerequisites := ["P1"] }

/-- A profile that completed `P1` and records no competencies at all. -/
def c8aProfile : StudentProfile :=
  { blankProfile with CompletedCourses := ["P1"] }

/-- C8 (witness). Monotonicity instantiated three ways: appending a
completed course to a profile with an empty competency record, appending
one to a profile with a recorded competency, and raising the grade of
`A` from `3` to `4` — `CheckPrerequisites` stays true each time. -/
theorem c8_witness :
    CheckPrerequisites c8aCourse (addCompleted c8aProfile "NEW") = true ∧
    CheckPrerequisites c8Course (addCompleted c8Profile "NEW") = true ∧
    CheckPrerequisites c8Course (setGrade c8Profile "A" 4) = true :=
  ⟨(checkPrerequisites_monotone c8aCourse c8aProfile).1 "NEW" (by decide),
   (checkPrerequisites_monotone c8Course c8Profile).1 "NEW" (by decide),
   (checkPrerequisites_monotone c8Course c8Profile).2 "A" 3 4 (by decide) (by norm_num)
     (by decide)⟩

/-! ### Quality evaluator (optimizer_evaluater.go lines 53-175) -/

/-- Go `CalculateSkillCoverage` from optimizer_evaluater.go. -/
def CalculateSkillCoverage (recommendedSet : List RecommendedCourse)
    (profile : StudentProfile) (requirements : CurriculumRequirements) : ℚ :=
  let missingComps := difference requirements.RequiredCompetencies (getMapKeys profile.Competencies)
  if missingComps.length = 0 then 1
  else
    let coveredByRecommendations :=
      recommendedSet.foldl (fun acc r => acc ++ r.Course.TeachesCompetencies) []
    ((intersection missingComps coveredByRecommendations).length : ℚ) / (missingComps.length : ℚ)

/-- Go `CalculatePrerequisiteCompliance` from optimizer_evaluater.go. -/
def CalculatePrerequisiteCompliance (recommendedSet : List RecommendedCourse)
    (profile : StudentProfile) : ℚ :=
  if recommendedSet.length = 0 then 1
  else
    ((recommendedSet.countP (fun r => CheckPrerequisites r.Course profile)) : ℚ) /
      (recommendedSet.length : ℚ)

/-- Go `CalculateProgramProgressFit` from optimizer_evaluater.go.  Note the
Go call `intersection(taught, missingRequired)` keeps the elements of
`missingRequired` found in `taught`. -/
def CalculateProgramProgressFit (recommendedSet : List RecommendedCourse)
    (profile : StudentProfile) (requirements : CurriculumRequirements) : ℚ :=
  let missingRequired := difference requirements.RequiredCompetencies (getMapKeys profile.Competencies)
  let competencyProgress : ℚ :=
    if 0 < missingRequired.length then
      let covered := unique (recommendedSet.foldl
        (fun acc r => acc ++ intersection r.Course.TeachesCompetencies missingRequired) [])
      (covered.length : ℚ) / (missingRequired.length : ℚ)
    else 1
  let distributionCoverage := recommendedSet.foldl
    (fun acc r => mapAdd acc r.Course.SubdomainID r.Course.CreditHours) []
  let distributionProgressScores := requirements.DistributionRequirements.map (fun e =>
    let currentCredits := (mapLookup profile.DistributionCredits e.1).getD 0
    let recommendedCredits := (mapLookup distributionCoverage e.1).getD 0
    let remainingGap := max 0 (e.2 - currentCredits)
    if 0 < remainingGap then min 1 (recommendedCredits / remainingGap) else 1)
  let distributionProgress :=
    if 0 < distributionProgressScores.length then mean distributionProgressScores else 1
  0.6 * competencyProgress + 0.4 * distributionProgress

/-- Go `EvaluateRecommendationSet` from optimizer_evaluater.go. -/
def EvaluateRecommendationSet (recommendedSet : List RecommendedCourse)
    (profile : StudentProfile) (requirements : CurriculumRequirements) : EvaluationMetrics :=
  let skillCoverage := CalculateSkillCoverage recommendedSet profile requirements
  let prereqCompliance := CalculatePrerequisiteCompliance recommendedSet profile
  let programProgressFit := CalculateProgramProgressFit recommendedSet profile requirements
  { GoodnessScore := 0.3 * skillCoverage + 0.3 * prereqCompliance + 0.4 * programProgressFit,
    SkillCoveragePercentage := skillCoverage,
    PrerequisiteCompliance := prereqCompliance,
    ProgramProgressFit := programProgressFit }

/-- C6. Evaluating the empty selection yields prerequisite
compliance `1.0`; its skill coverage is `1.0` exactly when no required
competency is still missing and `0.0` otherwise; and on a non-empty
selection the prerequisite compliance is the fraction of selected
courses passing `CheckPrerequisites`. -/
theorem c6_empty_selection_evaluation (profile : StudentProfile)
    (requirements : CurriculumRequirements) (s : List RecommendedCourse) (hs : s ≠ []) :
    CalculatePrerequisiteCompliance [] profile = 1 ∧
    (CalculateSkillCoverage [] profile requirements = 1 ↔
      difference requirements.RequiredCompetencies (getMapKeys profile.Competencies) = []) ∧
    (difference requirements.RequiredCompetencies (getMapKeys profile.Competencies) ≠ [] →
      CalculateSkillCoverage [] profile requirements = 0) ∧
    CalculatePrerequisiteCompliance s profile =
      ((s.countP (fun r => CheckPrerequisites r.Course profile)) : ℚ) / (s.length : ℚ) := by
  refine ⟨by simp [CalculatePrerequisiteCompliance], ?_, ?_, ?_⟩
  · unfold CalculateSkillCoverage
    by_cases h : difference requirements.RequiredCompetencies (getMapKeys profile.Competencies) = []
    · simp [h]
    · have hlen : (difference requirements.RequiredCompetencies
          (getMapKeys profile.Competencies)).length ≠ 0 := by
        simpa [List.length_eq_zero] using h
      simp only [List.foldl_nil, hlen, if_neg]
      constructor
      · intro habs
        exact absurd habs (by simp [intersection])
      · intro habs
        exact absurd habs h
  · intro h
    have hlen : (difference requirements.RequiredCompetencies
        (getMapKeys profile.Competencies)).length ≠ 0 := by
      simpa [List.length_eq_zero] using h
    simp [CalculateSkillCoverage, hlen, intersection]
  · have hlen : s.length ≠ 0 := by simpa [List.length_eq_zero] using hs
    simp [CalculatePrerequisiteCompliance, hlen]

/-- A trivial scored course built on `blankCourse`. -/
def blankRecommended : RecommendedCourse :=
  { Course := blankCourse, FitScore := 0, MatchedCompetencies := [], MissingCompetencies := [],
    CompetencyMatchScore := 0, InterestAlignmentScore := 0, ProgramProgressScore := 0,
    Reason := "" }

/-- Requirements that still demand competency `B`. -/
def reqB : CurriculumRequirements :=
  { blankRequirements with RequiredCompetencies := ["B"] }

/-- C6 (witness). The evaluation facts instantiated at a concrete
profile, a requirements object still missing competency `B`, and a
one-course selection. -/
theorem c6_witness :
    CalculatePrerequisiteCompliance [] blankProfile = 1 ∧
    CalculateSkillCoverage [] blankProfile reqB = 0 ∧
    CalculatePrerequisiteCompliance [blankRecommended] blankProfile =
      (([blankRecommended].countP (fun r => CheckPrerequisites r.Course blankProfile)) : ℚ) /
        (([blankRecommended] : List RecommendedCourse).length : ℚ) :=
  ⟨(c6_empty_selection_evaluation blankProfile reqB [blankRecommended] (by simp)).1,
   (c6_empty_selection_evaluation blankProfile reqB [blankRecommended] (by simp)).2.2.1
     (by simp [reqB, blankRequirements, blankProfile, difference, getMapKeys, contains]),
   (c6_empty_selection_evaluation blankProfile reqB [blankRecommended] (by simp)).2.2.2⟩

/-! ### Interest inference (recommender.go lines 150-201) -/

/-- The `courseMap` lookup of `InferInterestAreas`: a Go map built by a
forward scan keeps the last course for a duplicated `CourseID`, so the
lookup searches the reversed catalog. -/
def courseMapFind (courseCatalog : List Course) (courseID : String) : Option Course :=
  courseCatalog.reverse.find? (fun c => c.CourseID == courseID)

/-- Go `m[k] = append(m[k], g)` on the per-subdomain grade lists. -/
def perfAppend (m : List (String × List ℚ)) (k : String) (g : ℚ) : List (String × List ℚ) :=
  if (m.find? (fun e => e.1 == k)).isSome then
    m.map (fun e => if e.1 == k then (e.1, e.2 ++ [g]) else e)
  else m ++ [(k, [g])]

/-- Go map read on the per-subdomain grade lists (`nil` when absent). -/
def perfLookup (m : List (String × List ℚ)) (k : String) : List ℚ :=
  ((m.find? (fun e => e.1 == k)).map (fun e => e.2)).getD []

/-- One iteration of the completed-course loop of `InferInterestAreas`:
bucket the course by subdomain and record its grade when one exists. -/
def interestStep (courseCatalog : List Course) (competencies : List (String × ℚ))
    (st : List (String × Nat) × List (String × List ℚ)) (courseID : String) :
    List (String × Nat) × List (String × List ℚ) :=
  match courseMapFind courseCatalog courseID with
  | none => st
  | some course =>
    (countBump st.1 course.SubdomainID,
     match mapLookup competencies courseID with
     | some grade => perfAppend st.2 course.SubdomainID grade
     | none => st.2)

/-- The pre-normalization weights of `InferInterestAreas`:
`0.6·concentration + 0.4·performance` per subdomain, performance
defaulting to `0.5` when the subdomain has no graded course. -/
def rawInterestWeights (completedCourses : List String) (courseCatalog : List Course)
    (competencies : List (String × ℚ)) : List (String × ℚ) :=
  let st := completedCourses.foldl (interestStep courseCatalog competencies) ([], [])
  st.1.map (fun e =>
    let concentrationWeight := (e.2 : ℚ) / (completedCourses.length : ℚ)
    let performanceWeight : ℚ :=
      if 0 < (perfLookup st.2 e.1).length then mean (perfLookup st.2 e.1) / 4 else 0.5
    (e.1, 0.6 * concentrationWeight + 0.4 * performanceWeight))

/-- Go `InferInterestAreas` from recommender.go. -/
def InferInterestAreas (completedCourses : List String) (courseCatalog : List Course)
    (competencies : List (String × ℚ)) : List (String × ℚ) :=
  if completedCourses.length = 0 then []
  else
    let interestWeights := rawInterestWeights completedCourses courseCatalog competencies
    let totalWeight := (interestWeights.map (fun e => e.2)).sum
    if 0 < totalWeight then interestWeights.map (fun e => (e.1, e.2 / totalWeight))
    else interestWeights

/-! ### C7: interest inference facts -/

theorem foldl_inv {α σ : Type} (P : σ → Prop) (f : σ → α → σ)
    (hstep : ∀ s a, P s → P (f s a)) : ∀ (l : List α) (s : σ), P s → P (l.foldl f s) := by
  intro l
  induction l with
  | nil => intro s hs; exact hs
  | cons x xs ih => intro s hs; exact ih (f s x) (hstep s x hs)

theorem countBump_ne_nil (m : List (String × Nat)) (k : String) : countBump m k ≠ [] := by
  unfold countBump
  by_cases h : (m.find? (fun e => e.1 == k)).isSome
  · rw [if_pos h]
    intro habs
    rw [List.map_eq_nil_iff] at habs
    rw [habs] at h
    simp [List.find?] at h
  · rw [if_neg h]
    simp

theorem countBump_pos (m : List (String × Nat)) (k : String)
    (hm : ∀ e ∈ m, 1 ≤ e.2) : ∀ e ∈ countBump m k, 1 ≤ e.2 := by
  intro e he
  unfold countBump at he
  by_cases h : (m.find? (fun e => e.1 == k)).isSome
  · rw [if_pos h] at he
    obtain ⟨x, hx, hxe⟩ := List.mem_map.1 he
    by_cases hk : x.1 == k
    · simp [hk] at hxe
      have := hm x hx
      rw [← hxe]
      show 1 ≤ x.2 + 1
      omega
    · simp [hk] at hxe
      exact hxe ▸ hm x hx
  · rw [if_neg h] at he
    rcases List.mem_append.1 he with h1 | h1
    · exact hm e h1
    · have : e = (k, 1) := by simpa using h1
      rw [this]

theorem perfAppend_nonneg (m : List (String × List ℚ)) (k : String) (g : ℚ)
    (hm : ∀ e ∈ m, ∀ x ∈ e.2, 0 ≤ x) (hgpos : 0 ≤ g) :
    ∀ e ∈ perfAppend m k g, ∀ x ∈ e.2, 0 ≤ x := by
  intro e he x hx
  unfold perfAppend at he
  by_cases h : (m.find? (fun e => e.1 == k)).isSome
  · rw [if_pos h] at he
    obtain ⟨y, hy, hye⟩ := List.mem_map.1 he
    by_cases hk : y.1 == k
    · rw [if_pos hk] at hye
      rw [← hye] at hx
      rcases List.mem_append.1 hx with h1 | h1
      · exact hm y hy x h1
      · have : x = g := by simpa using h1
        exact this ▸ hgpos
    · rw [if_neg hk] at hye
      exact hm y hy x (hye ▸ hx)
  · rw [if_neg h] at he
    rcases List.mem_append.1 he with h1 | h1
    · exact hm e h1 x hx
    · have : e = (k, [g]) := by simpa using h1
      rw [this] at hx
      have : x = g := by simpa using hx
      exact this ▸ hgpos

theorem interestStep_inv (courseCatalog : List Course) (competencies : List (String × ℚ))
    (hg : ∀ e ∈ competencies, 0 ≤ e.2) (st : List (String × Nat) × List (String × List ℚ))
    (courseID : String)
    (h : (∀ e ∈ st.1, 1 ≤ e.2) ∧ (∀ e ∈ st.2, ∀ x ∈ e.2, 0 ≤ x)) :
    (∀ e ∈ (interestStep courseCatalog competencies st courseID).1, 1 ≤ e.2) ∧
      (∀ e ∈ (interestStep courseCatalog competencies st courseID).2, ∀ x ∈ e.2, 0 ≤ x) := by
  unfold interestStep
  cases hfind : courseMapFind courseCatalog courseID with
  | none => exact h
  | some course =>
    refine ⟨countBump_pos _ _ h.1, ?_⟩
    cases hgr : mapLookup competencies courseID with
    | none => exact h.2
    | some grade =>
      have : 0 ≤ grade := by
        have := hg (courseID, grade) (mapLookup_mem _ _ _ hgr)
        simpa using this
      exact perfAppend_nonneg _ _ _ h.2 this

theorem interestStep_counts_ne_nil (courseCatalog : List Course)
    (competencies : List (String × ℚ)) (st : List (String × Nat) × List (String × List ℚ))
    (courseID : String) (h : st.1 ≠ []) :
    (interestStep courseCatalog competencies st courseID).1 ≠ [] := by
  unfold interestStep
  cases courseMapFind courseCatalog courseID with
  | none => exact h
  | some course => exact countBump_ne_nil _ _

theorem interestFold_counts_ne_nil (courseCatalog : List Course)
    (competencies : List (String × ℚ)) :
    ∀ (l : List String) (st : List (String × Nat) × List (String × List ℚ)),
      (∃ id ∈ l, (courseMapFind courseCatalog id).isSome = true) →
      (l.foldl (interestStep courseCatalog competencies) st).1 ≠ [] := by
  intro l
  induction l with
  | nil =>
    intro st h
    obtain ⟨id, hmem, _⟩ := h
    exact absurd hmem (List.not_mem_nil id)
  | cons x xs ih =>
    intro st h
    obtain ⟨id, hmem, hsome⟩ := h
    rcases List.mem_cons.1 hmem with heq | hxs
    · subst heq
      rw [List.foldl_cons]
      apply foldl_inv (fun s => s.1 ≠ []) _
        (fun s a hs => interestStep_counts_ne_nil _ _ s a hs)
      unfold interestStep
      cases hfind : courseMapFind courseCatalog id with
      | none => rw [hfind] at hsome; simp at hsome
      | some course => exact countBump_ne_nil _ _
    · rw [List.foldl_cons]
      exact ih _ ⟨id, hxs, hsome⟩

theorem sum_map_div (l : List ℚ) (d : ℚ) : (l.map (fun x => x / d)).sum = l.sum / d := by
  induction l with
  | nil => simp
  | cons x xs ih => simp [ih, add_div]

theorem mean_nonneg (l : List ℚ) (h : ∀ x ∈ l, 0 ≤ x) : 0 ≤ mean l := by
  unfold mean
  by_cases hl : l.length = 0
  · rw [if_pos hl]
  · rw [if_neg hl]
    have : (0 : ℚ) ≤ l.length := by positivity
    exact div_nonneg (List.sum_nonneg h) this

theorem rawInterestWeights_pos (completedCourses : List String)
    (courseCatalog : List Course) (competencies : List (String × ℚ))
    (hg : ∀ e ∈ competencies, 0 ≤ e.2) (hne : completedCourses ≠ []) :
    ∀ e ∈ rawInterestWeights completedCourses courseCatalog competencies, 0 < e.2 := by
  intro e he
  unfold rawInterestWeights at he
  obtain ⟨x, hx, hxe⟩ := List.mem_map.1 he
  have hinv := foldl_inv
    (fun st : List (String × Nat) × List (String × List ℚ) =>
      (∀ e ∈ st.1, 1 ≤ e.2) ∧ (∀ e ∈ st.2, ∀ g ∈ e.2, 0 ≤ g))
    (interestStep courseCatalog competencies)
    (fun s a hs => interestStep_inv courseCatalog competencies hg s a hs)
    completedCourses ([], []) (by simp)
  have hx1 : 1 ≤ x.2 := hinv.1 x hx
  have hlen : (0 : ℚ) < (completedCourses.length : ℚ) := by
    have : completedCourses.length ≠ 0 := by simpa [List.length_eq_zero] using hne
    exact_mod_cast Nat.pos_of_ne_zero this
  have hconc : 0 < (x.2 : ℚ) / (completedCourses.length : ℚ) := by
    apply div_pos _ hlen
    exact_mod_cast hx1
  have hperf : (0 : ℚ) ≤
      (if 0 < (perfLookup (completedCourses.foldl
          (interestStep courseCatalog competencies) ([], [])).2 x.1).length then
        mean (perfLookup (completedCourses.foldl
          (interestStep courseCatalog competencies) ([], [])).2 x.1) / 4
      else 0.5) := by
    set st := completedCourses.foldl (interestStep courseCatalog competencies) ([], []) with hst
    by_cases hp : 0 < (perfLookup st.2 x.1).length
    · rw [if_pos hp]
      apply div_nonneg _ (by norm_num)
      apply mean_nonneg
      intro g hgmem
      unfold perfLookup at hgmem
      cases hfind : st.2.find? (fun e => e.1 == x.1) with
      | none => rw [hfind] at hgmem; simp at hgmem
      | some y =>
        rw [hfind] at hgmem
        simp at hgmem
        exact hinv.2 y (List.mem_of_find?_eq_some hfind) g hgmem
    · rw [if_neg hp]
      norm_num
  rw [← hxe]
  show (0 : ℚ) < 0.6 * ((x.2 : ℚ) / (completedCourses.length : ℚ)) +
      0.4 * (if 0 < (perfLookup (completedCourses.foldl
          (interestStep courseCatalog competencies) ([], [])).2 x.1).length then
        mean (perfLookup (completedCourses.foldl
          (interestStep courseCatalog competencies) ([], [])).2 x.1) / 4
      else 0.5)
  nlinarith [hconc, hperf]

/-- C7 (amended). `inferInterests` on an empty completed-course list
returns the empty mapping; and for a non-empty completed-course list the
returned weights sum to `1` *provided* at least one completed course id
is found in the catalog and recorded grades are nonnegative — a
non-empty history whose courses all miss the catalog yields the empty
mapping (sum `0`), not a normalized one. -/
theorem c7_inferInterests (completedCourses : List String) (courseCatalog : List Course)
    (competencies : List (String × ℚ))
    (hg : ∀ e ∈ competencies, 0 ≤ e.2)
    (hmatch : ∃ id ∈ completedCourses, (courseMapFind courseCatalog id).isSome = true) :
    InferInterestAreas [] courseCatalog competencies = [] ∧
    ((InferInterestAreas completedCourses courseCatalog competencies).map (fun e => e.2)).sum = 1 := by
  refine ⟨by simp [InferInterestAreas], ?_⟩
  have hne : completedCourses ≠ [] := by
    obtain ⟨id, hmem, _⟩ := hmatch
    intro habs
    rw [habs] at hmem
    exact absurd hmem (List.not_mem_nil id)
  have hlen : completedCourses.length ≠ 0 := by simpa [List.length_eq_zero] using hne
  unfold InferInterestAreas
  rw [if_neg hlen]
  set raw := rawInterestWeights completedCourses courseCatalog competencies with hraw
  have hrawne : raw ≠ [] := by
    rw [hraw]
    unfold rawInterestWeights
    intro habs
    rw [List.map_eq_nil_iff] at habs
    exact interestFold_counts_ne_nil courseCatalog competencies completedCourses ([], [])
      hmatch habs
  have hpos : ∀ x ∈ raw.map (fun e => e.2), 0 < x := by
    intro x hx
    obtain ⟨e, hemem, hex⟩ := List.mem_map.1 hx
    exact hex ▸ rawInterestWeights_pos completedCourses courseCatalog competencies hg hne e hemem
  have hW : 0 < (raw.map (fun e => e.2)).sum := by
    apply List.sum_pos _ hpos
    intro habs
    rw [List.map_eq_nil_iff] at habs
    exact hrawne habs
  rw [if_pos hW]
  set W := (raw.map (fun e => e.2)).sum with hWdef
  have : (raw.map (fun e => (e.1, e.2 / W))).map (fun e => e.2) =
      (raw.map (fun e => e.2)).map (fun x => x / W) := by
    simp [List.map_map]
  rw [this, sum_map_div, ← hWdef]
  exact div_self hW.ne'

/-- C7 (counterexample). The claim as stated promises a normalized
(sum-to-1) mapping for *every* non-empty completed-course list, but when
no completed course id matches the catalog the function returns the
empty mapping, whose weights sum to `0`. -/
theorem c7_counterexample :
    (["X"] : List String) ≠ [] ∧
    ((InferInterestAreas ["X"] [] []).map (fun e => e.2)).sum ≠ 1 := by
  constructor
  · simp
  · decide

/-- A one-course catalog for the interest-inference witness. -/
def c7Catalog : List Course := [{ blankCourse with CourseID := "M1", SubdomainID := "S" }]

/-- C7 (witness). The amended interest-inference facts instantiated at a
catalog containing the completed course `M1`. -/
theorem c7_witness :
    InferInterestAreas [] c7Catalog [("M1", 3)] = [] ∧
    ((InferInterestAreas ["M1"] c7Catalog [("M1", 3)]).map (fun e => e.2)).sum = 1 :=
  c7_inferInterests ["M1"] c7Catalog [("M1", 3)] (by decide)
    ⟨"M1", by simp, by decide⟩

/-! ### Set optimizer, variant of optimizer_evaluater.go (credit-cap-only) -/

/-- Total credit hours of a selection (`calculateTotalCredits` in
service.go computes the same sum). -/
def sumCredits (courses : List RecommendedCourse) : ℚ :=
  (courses.map (fun c => c.Course.CreditHours)).sum

/-- Loop state of the credit-cap-only `OptimizeCourseSet`
(optimizer_evaluater.go); `stopped` models the `break`. -/
structure SelStateV0 where
  selected : List RecommendedCourse
  totalCredits : ℚ
  subdomainCount : List (String × Nat)
  stopped : Bool

/-- One iteration of the credit-cap-only `OptimizeCourseSet` loop:
skip when the course would push past the target or its subdomain
reached 10 picks; stop once within 2 credits of the target. -/
def stepV0 (targetCredits : ℚ) (s : SelStateV0) (courseRec : RecommendedCourse) : SelStateV0 :=
  if s.stopped then s
  else if targetCredits < s.totalCredits + courseRec.Course.CreditHours then s
  else if 10 ≤ countLookup s.subdomainCount courseRec.Course.SubdomainID then s
  else
    let total := s.totalCredits + courseRec.Course.CreditHours
    { selected := s.selected ++ [courseRec], totalCredits := total,
      subdomainCount := countBump s.subdomainCount courseRec.Course.SubdomainID,
      stopped := decide (targetCredits - 2 ≤ total) }

/-- Go `OptimizeCourseSet` from optimizer_evaluater.go (the credit-cap-only
variant; its profile and requirements parameters are unused, as in Go). -/
def OptimizeCourseSetV0 (scoredCourses : List RecommendedCourse)
    (studentProfile : StudentProfile) (requirements : CurriculumRequirements)
    (maxCreditLoad : ℚ) : List RecommendedCourse :=
  let targetCredits := min maxCreditLoad 60
  (scoredCourses.foldl (stepV0 targetCredits)
    { selected := [], totalCredits := 0, subdomainCount := [], stopped := false }).selected

/-! ### Set optimizer, variant of part_001 (priority pass plus fill pass) -/

/-- Loop state of the two-phase `OptimizeCourseSet` (part_001). -/
structure SelStateV1 where
  selected : List RecommendedCourse
  totalCredits : ℚ
  subdomainCount : List (String × Nat)
  priorityCount : Nat
  stopped : Bool

/-- Go `isGraduationRequirement` from part_001: the course code, id, or any
taught competency appears in the still-required set. -/
def isGraduationRequirement (requirements : CurriculumRequirements) (c : Course) : Bool :=
  contains requirements.RequiredCompetencies c.CourseCode ||
  contains requirements.RequiredCompetencies c.CourseID ||
  c.TeachesCompetencies.any (fun taught => contains requirements.RequiredCompetencies taught)

/-- One iteration of the Phase-1 (graduation priority) loop of part_001.
The Go `break` at `priorityCount >= 3` is modelled by skipping, which is
equivalent because `priorityCount` never decreases. -/
def stepV1Priority (requirements : CurriculumRequirements) (targetCredits : ℚ)
    (s : SelStateV1) (courseRec : RecommendedCourse) : SelStateV1 :=
  if 3 ≤ s.priorityCount then s
  else if !(isGraduationRequirement requirements courseRec.Course) then s
  else if targetCredits < s.totalCredits + courseRec.Course.CreditHours then s
  else if containsRecommendedCourse s.selected courseRec then s
  else
    { selected := s.selected ++ [courseRec],
      totalCredits := s.totalCredits + courseRec.Course.CreditHours,
      subdomainCount := countBump s.subdomainCount courseRec.Course.SubdomainID,
      priorityCount := s.priorityCount + 1, stopped := s.stopped }

/-- One iteration of the Phase-2 (fill) loop of part_001. -/
def stepV1Fill (targetCredits : ℚ) (s : SelStateV1) (courseRec : RecommendedCourse) : SelStateV1 :=
  if s.stopped then s
  else if containsRecommendedCourse s.selected courseRec then s
  else if targetCredits < s.totalCredits + courseRec.Course.CreditHours then s
  else if 10 ≤ countLookup s.subdomainCount courseRec.Course.SubdomainID then s
  else
    let total := s.totalCredits + courseRec.Course.CreditHours
    { selected := s.selected ++ [courseRec], totalCredits := total,
      subdomainCount := countBump s.subdomainCount courseRec.Course.SubdomainID,
      priorityCount := s.priorityCount, stopped := decide (targetCredits ≤ total) }

/-- Go `OptimizeCourseSet` from part_001 (priority-plus-fill variant;
`targetCredits` is `maxCreditLoad` itself, the 60-credit cap having been
removed in that snapshot). -/
def OptimizeCourseSetPriorityFill (scoredCourses : List RecommendedCourse)
    (studentProfile : StudentProfile) (requirements : CurriculumRequirements)
    (maxCreditLoad : ℚ) : List RecommendedCourse :=
  let targetCredits := maxCreditLoad
  let s1 := scoredCourses.foldl (stepV1Priority requirements targetCredits)
    { selected := [], totalCredits := 0, subdomainCount := [], priorityCount := 0,
      stopped := false }
  let s2 := scoredCourses.foldl (stepV1Fill targetCredits) s1
  s2.selected

/-! ### Set optimizer, variant of part_002 (marginal value with threshold) -/

/-- Loop state of the marginal-value `OptimizeCourseSet` (part_002). -/
structure SelStateV2 where
  selected : List RecommendedCourse
  totalCredits : ℚ
  coveredCompetencies : List String
  distributionCoverage : List (String × ℚ)
  subdomainCount : List (String × Nat)
  stopped : Bool

/-- The `distributionValue` local of part_002's loop body: `min(1,
credits/gap)` while the subdomain's gap is open, else `0.2`. -/
def distributionValueV2 (requirements : CurriculumRequirements) (s : SelStateV2)
    (courseRec : RecommendedCourse) : ℚ :=
  let subdomain := courseRec.Course.SubdomainID
  let requiredInSubdomain := (mapLookup requirements.DistributionRequirements subdomain).getD 0
  let currentInSubdomain := (mapLookup s.distributionCoverage subdomain).getD 0
  let gapInSubdomain := max 0 (requiredInSubdomain - currentInSubdomain)
  if 0 < gapInSubdomain then min 1 (courseRec.Course.CreditHours / gapInSubdomain) else 0.2

/-- The `marginalValue` local of part_002's loop body:
`0.3·(newComps/5) + 0.3·distributionValue + 0.4·fitScore`. -/
def marginalValueV2 (requirements : CurriculumRequirements) (s : SelStateV2)
    (courseRec : RecommendedCourse) : ℚ :=
  0.3 * (((difference courseRec.Course.TeachesCompetencies s.coveredCompetencies).length : ℚ) / 5) +
    0.3 * distributionValueV2 requirements s courseRec + 0.4 * courseRec.FitScore

/-- The `acceptanceThreshold` local of part_002's loop body. -/
def acceptanceThresholdV2 (targetCredits : ℚ) (s : SelStateV2) : ℚ :=
  0.5 * (1 - s.totalCredits / targetCredits)

/-- One iteration of part_002's main loop.  The Go credit guard skips a
course exactly when it would push past the target AND (the running total
already reached the 36-credit floor OR it would also push past
`maxCreditLoad`). -/
def stepV2 (requirements : CurriculumRequirements) (targetCredits maxCreditLoad : ℚ)
    (s : SelStateV2) (courseRec : RecommendedCourse) : SelStateV2 :=
  if s.stopped then s
  else if targetCredits < s.totalCredits + courseRec.Course.CreditHours ∧
      (36 ≤ s.totalCredits ∨ maxCreditLoad < s.totalCredits + courseRec.Course.CreditHours) then s
  else if 3 ≤ countLookup s.subdomainCount courseRec.Course.SubdomainID then s
  else if marginalValueV2 requirements s courseRec < acceptanceThresholdV2 targetCredits s then s
  else
    let total := s.totalCredits + courseRec.Course.CreditHours
    { selected := s.selected ++ [courseRec], totalCredits := total,
      coveredCompetencies := s.coveredCompetencies ++ courseRec.Course.TeachesCompetencies,
      distributionCoverage :=
        mapAdd s.distributionCoverage courseRec.Course.SubdomainID courseRec.Course.CreditHours,
      subdomainCount := countBump s.subdomainCount courseRec.Course.SubdomainID,
      stopped := decide (targetCredits ≤ total) }

/-- One iteration of part_002's below-floor fallback loop: append any
not-yet-selected course that fits under `maxCreditLoad`, until the
36-credit floor is reached. -/
def stepV2Fallback (maxCreditLoad : ℚ) (s : SelStateV2) (courseRec : RecommendedCourse) :
    SelStateV2 :=
  if s.stopped then s
  else if containsRecommendedCourse s.selected courseRec then s
  else if s.totalCredits + courseRec.Course.CreditHours ≤ maxCreditLoad then
    { s with
      selected := s.selected ++ [courseRec],
      totalCredits := s.totalCredits + courseRec.Course.CreditHours,
      stopped := decide (36 ≤ s.totalCredits + courseRec.Course.CreditHours) }
  else s

/-- Go `OptimizeCourseSet` from part_002 (marginal-value variant with the
below-floor fallback pass). -/
def OptimizeCourseSetMarginal (scoredCourses : List RecommendedCourse)
    (studentProfile : StudentProfile) (requirements : CurriculumRequirements)
    (maxCreditLoad : ℚ) : List RecommendedCourse :=
  let targetCredits := min maxCreditLoad 60
  let s1 := scoredCourses.foldl (stepV2 requirements targetCredits maxCreditLoad)
    { selected := [], totalCredits := 0,
      coveredCompetencies := getMapKeys studentProfile.Competencies,
      distributionCoverage := studentProfile.DistributionCredits,
      subdomainCount := [], stopped := false }
  let s2 := if s1.totalCredits < 36 then
      scoredCourses.foldl (stepV2Fallback maxCreditLoad) { s1 with stopped := false }
    else s1
  s2.selected

/-! ### C1: the hard credit ceiling -/

theorem sumCredits_append (l : List RecommendedCourse) (c : RecommendedCourse) :
    sumCredits (l ++ [c]) = sumCredits l + c.Course.CreditHours := by
  simp [sumCredits]

/-- The credit invariant carried through every optimizer loop. -/
def CreditInv (maxCreditLoad : ℚ) (selected : List RecommendedCourse) (totalCredits : ℚ) : Prop :=
  sumCredits selected = totalCredits ∧ totalCredits ≤ maxCreditLoad

theorem stepV0_creditInv (targetCredits maxCreditLoad : ℚ) (htm : targetCredits ≤ maxCreditLoad)
    (s : SelStateV0) (c : RecommendedCourse)
    (h : CreditInv maxCreditLoad s.selected s.totalCredits) :
    CreditInv maxCreditLoad (stepV0 targetCredits s c).selected
      (stepV0 targetCredits s c).totalCredits := by
  unfold stepV0
  split_ifs with h1 h2 h3
  · exact h
  · exact h
  · exact h
  · push_neg at h2
    exact ⟨(sumCredits_append s.selected c).trans (by rw [h.1]), le_trans h2 htm⟩

theorem stepV1Priority_creditInv (requirements : CurriculumRequirements)
    (targetCredits maxCreditLoad : ℚ) (htm : targetCredits ≤ maxCreditLoad)
    (s : SelStateV1) (c : RecommendedCourse)
    (h : CreditInv maxCreditLoad s.selected s.totalCredits) :
    CreditInv maxCreditLoad (stepV1Priority requirements targetCredits s c).selected
      (stepV1Priority requirements targetCredits s c).totalCredits := by
  unfold stepV1Priority
  split_ifs with h1 h2 h3 h4
  · exact h
  · exact h
  · exact h
  · exact h
  · push_neg at h3
    exact ⟨(sumCredits_append s.selected c).trans (by rw [h.1]), le_trans h3 htm⟩

theorem stepV1Fill_creditInv (targetCredits maxCreditLoad : ℚ) (htm : targetCredits ≤ maxCreditLoad)
    (s : SelStateV1) (c : RecommendedCourse)
    (h : CreditInv maxCreditLoad s.selected s.totalCredits) :
    CreditInv maxCreditLoad (stepV1Fill targetCredits s c).selected
      (stepV1Fill targetCredits s c).totalCredits := by
  unfold stepV1Fill
  split_ifs with h1 h2 h3 h4
  · exact h
  · exact h
  · exact h
  · exact h
  · push_neg at h3
    exact ⟨(sumCredits_append s.selected c).trans (by rw [h.1]), le_trans h3 htm⟩

theorem stepV2_creditInv (requirements : CurriculumRequirements)
    (targetCredits maxCreditLoad : ℚ) (htm : targetCredits ≤ maxCreditLoad)
    (s : SelStateV2) (c : RecommendedCourse)
    (h : CreditInv maxCreditLoad s.selected s.totalCredits) :
    CreditInv maxCreditLoad (stepV2 requirements targetCredits maxCreditLoad s c).selected
      (stepV2 requirements targetCredits maxCreditLoad s c).totalCredits := by
  unfold stepV2
  split_ifs with h1 h2 h3 h4
  · exact h
  · exact h
  · exact h
  · exact h
  · push_neg at h2
    refine ⟨(sumCredits_append s.selected c).trans (by rw [h.1]), ?_⟩
    by_cases hcase : s.totalCredits + c.Course.CreditHours ≤ targetCredits
    · exact le_trans hcase htm
    · push_neg at hcase
      obtain ⟨-, hmax⟩ := h2 hcase
      exact hmax

theorem stepV2Fallback_creditInv (maxCreditLoad : ℚ) (s : SelStateV2) (c : RecommendedCourse)
    (h : CreditInv maxCreditLoad s.selected s.totalCredits) :
    CreditInv maxCreditLoad (stepV2Fallback maxCreditLoad s c).selected
      (stepV2Fallback maxCreditLoad s c).totalCredits := by
  unfold stepV2Fallback
  split_ifs with h1 h2 h3
  · exact h
  · exact h
  · exact ⟨(sumCredits_append s.selected c).trans (by rw [h.1]), h3⟩
  · exact h

/-- C1 (amended). For a nonnegative credit-load argument, every
optimizer variant — the credit-cap-only one, the priority-plus-fill one,
and the marginal-value one including its below-floor fallback pass —
returns a selection whose total credit hours never exceed
`maxCreditLoad`.  (Nonnegativity is needed: an empty selection totals
`0`, which already exceeds a negative ceiling.) -/
theorem c1_credit_ceiling (scoredCourses : List RecommendedCourse)
    (studentProfile : StudentProfile) (requirements : CurriculumRequirements)
    (maxCreditLoad : ℚ) (hmax : 0 ≤ maxCreditLoad) :
    sumCredits (OptimizeCourseSetV0 scoredCourses studentProfile requirements maxCreditLoad) ≤
      maxCreditLoad ∧
    sumCredits (OptimizeCourseSetPriorityFill scoredCourses studentProfile requirements
      maxCreditLoad) ≤ maxCreditLoad ∧
    sumCredits (OptimizeCourseSetMarginal scoredCourses studentProfile requirements
      maxCreditLoad) ≤ maxCreditLoad := by
  refine ⟨?_, ?_, ?_⟩
  · unfold OptimizeCourseSetV0
    have := foldl_inv (fun s : SelStateV0 => CreditInv maxCreditLoad s.selected s.totalCredits)
      (stepV0 (min maxCreditLoad 60))
      (fun s a hs => stepV0_creditInv _ _ (min_le_left _ _) s a hs)
      scoredCourses
      { selected := [], totalCredits := 0, subdomainCount := [], stopped := false }
      ⟨by simp [sumCredits], hmax⟩
    rw [this.1]
    exact this.2
  · unfold OptimizeCourseSetPriorityFill
    have h1 := foldl_inv (fun s : SelStateV1 => CreditInv maxCreditLoad s.selected s.totalCredits)
      (stepV1Priority requirements maxCreditLoad)
      (fun s a hs => stepV1Priority_creditInv _ _ _ le_rfl s a hs)
      scoredCourses
      { selected := [], totalCredits := 0, subdomainCount := [], priorityCount := 0,
        stopped := false }
      ⟨by simp [sumCredits], hmax⟩
    have h2 := foldl_inv (fun s : SelStateV1 => CreditInv maxCreditLoad s.selected s.totalCredits)
      (stepV1Fill maxCreditLoad)
      (fun s a hs => stepV1Fill_creditInv _ _ le_rfl s a hs)
      scoredCourses _ h1
    rw [h2.1]
    exact h2.2
  · simp only [OptimizeCourseSetMarginal]
    have h1 := foldl_inv (fun s : SelStateV2 => CreditInv maxCreditLoad s.selected s.totalCredits)
      (stepV2 requirements (min maxCreditLoad 60) maxCreditLoad)
      (fun s a hs => stepV2_creditInv _ _ _ (min_le_left _ _) s a hs)
      scoredCourses
      { selected := [], totalCredits := 0,
        coveredCompetencies := getMapKeys studentProfile.Competencies,
        distributionCoverage := studentProfile.DistributionCredits,
        subdomainCount := [], stopped := false }
      ⟨by simp [sumCredits], hmax⟩
    set s1 := scoredCourses.foldl (stepV2 requirements (min maxCreditLoad 60) maxCreditLoad)
      { selected := [], totalCredits := 0,
        coveredCompetencies := getMapKeys studentProfile.Competencies,
        distributionCoverage := studentProfile.DistributionCredits,
        subdomainCount := [], stopped := false } with hs1
    by_cases hfb : s1.totalCredits < 36
    · rw [if_pos hfb]
      have h2 := foldl_inv
        (fun s : SelStateV2 => CreditInv maxCreditLoad s.selected s.totalCredits)
        (stepV2Fallback maxCreditLoad)
        (fun s a hs => stepV2Fallback_creditInv _ s a hs)
        scoredCourses { s1 with stopped := false } h1
      rw [h2.1]
      exact h2.2
    · rw [if_neg hfb]
      rw [h1.1]
      exact h1.2

/-- C1 (counterexample). The claim quantifies over *every*
credit-load argument; at the negative ceiling `-1` the optimizer returns
the empty selection, whose total `0` exceeds the ceiling. -/
theorem c1_counterexample :
    ¬ (sumCredits (OptimizeCourseSetV0 [] blankProfile blankRequirements (-1)) ≤ -1) := by
  decide

/-- C1 (witness). The amended ceiling bound instantiated at a
one-course candidate list and ceiling `10`. -/
theorem c1_witness :
    sumCredits (OptimizeCourseSetV0 [blankRecommended] blankProfile blankRequirements 10) ≤ 10 ∧
    sumCredits (OptimizeCourseSetPriorityFill [blankRecommended] blankProfile blankRequirements
      10) ≤ 10 ∧
    sumCredits (OptimizeCourseSetMarginal [blankRecommended] blankProfile blankRequirements
      10) ≤ 10 :=
  c1_credit_ceiling [blankRecommended] blankProfile blankRequirements 10 (by norm_num)

/-! ### C10: no duplicate CourseIDs in the priority-plus-fill optimizer -/

theorem containsRecommendedCourse_iff (courses : List RecommendedCourse)
    (course : RecommendedCourse) :
    containsRecommendedCourse courses course = true ↔
      course.Course.CourseID ∈ courses.map (fun c => c.Course.CourseID) := by
  unfold containsRecommendedCourse
  rw [List.any_eq_true, List.mem_map]
  constructor
  · rintro ⟨c, hc, hbeq⟩
    exact ⟨c, hc, beq_iff_eq.mp hbeq⟩
  · rintro ⟨c, hc, heq⟩
    exact ⟨c, hc, beq_iff_eq.mpr heq⟩

theorem nodup_append_of_not_mem (l : List RecommendedCourse) (c : RecommendedCourse)
    (h : (l.map (fun x => x.Course.CourseID)).Nodup)
    (hc : c.Course.CourseID ∉ l.map (fun x => x.Course.CourseID)) :
    ((l ++ [c]).map (fun x => x.Course.CourseID)).Nodup := by
  rw [List.map_append]
  simp [List.nodup_append, h, hc]

theorem stepV1Priority_nodup (requirements : CurriculumRequirements) (targetCredits : ℚ)
    (s : SelStateV1) (c : RecommendedCourse)
    (h : (s.selected.map (fun x => x.Course.CourseID)).Nodup) :
    (((stepV1Priority requirements targetCredits s c).selected.map
      (fun x => x.Course.CourseID))).Nodup := by
  unfold stepV1Priority
  split_ifs with h1 h2 h3 h4
  · exact h
  · exact h
  · exact h
  · exact h
  · refine nodup_append_of_not_mem _ _ h ?_
    intro habs
    exact h4 ((containsRecommendedCourse_iff _ _).2 habs)

theorem stepV1Fill_nodup (targetCredits : ℚ) (s : SelStateV1) (c : RecommendedCourse)
    (h : (s.selected.map (fun x => x.Course.CourseID)).Nodup) :
    (((stepV1Fill targetCredits s c).selected.map (fun x => x.Course.CourseID))).Nodup := by
  unfold stepV1Fill
  split_ifs with h1 h2 h3 h4
  · exact h
  · exact h
  · exact h
  · exact h
  · refine nodup_append_of_not_mem _ _ h ?_
    intro habs
    exact h2 ((containsRecommendedCourse_iff _ _).2 habs)

/-- C10. The two-phase (priority-plus-fill) optimizer never returns
two entries with the same `CourseID`: both passes skip any candidate
whose `CourseID` is already selected, so the output's `CourseID` list
has no duplicates — even when the input contains several scored entries
for one course. -/
theorem c10_no_duplicate_courseIDs (scoredCourses : List RecommendedCourse)
    (studentProfile : StudentProfile) (requirements : CurriculumRequirements)
    (maxCreditLoad : ℚ) :
    ((OptimizeCourseSetPriorityFill scoredCourses studentProfile requirements
      maxCreditLoad).map (fun c => c.Course.CourseID)).Nodup := by
  unfold OptimizeCourseSetPriorityFill
  have h1 := foldl_inv
    (fun s : SelStateV1 => (s.selected.map (fun x => x.Course.CourseID)).Nodup)
    (stepV1Priority requirements maxCreditLoad)
    (fun s a hs => stepV1Priority_nodup requirements maxCreditLoad s a hs)
    scoredCourses
    { selected := [], totalCredits := 0, subdomainCount := [], priorityCount := 0,
      stopped := false }
    (by simp)
  exact foldl_inv
    (fun s : SelStateV1 => (s.selected.map (fun x => x.Course.CourseID)).Nodup)
    (stepV1Fill maxCreditLoad)
    (fun s a hs => stepV1Fill_nodup maxCreditLoad s a hs)
    scoredCourses _ h1

/-! ### C5: the marginal-value acceptance rule -/

/-- The marginal value as the claim words it (a definition following the
spec's words, for comparison with `marginalValueV2` from the source):
`0.3` times the count of new competencies with the contribution capped
at `5`, plus `0.3` times the distribution-gap relief, plus `0.4` times
the fit score. -/
def claimedMarginalValue (requirements : CurriculumRequirements) (s : SelStateV2)
    (courseRec : RecommendedCourse) : ℚ :=
  0.3 * min (((difference courseRec.Course.TeachesCompetencies s.coveredCompetencies).length : ℚ)) 5 +
    0.3 * distributionValueV2 requirements s courseRec + 0.4 * courseRec.FitScore

/-- C5 (amended). In part_002's main loop a not-yet-stopped state
accepts a candidate exactly when: the credit guard passes (either the
running total plus the course stays within the credit target, or the
total is still below the 36-credit floor and the sum stays within
`maxCreditLoad` — so a below-floor acceptance *may* exceed the target),
its subdomain has fewer than 3 picks, and the marginal value
`0.3·(newCompetencies/5) + 0.3·gapRelief + 0.4·fitScore` — the new-skill
count is divided by 5, not capped at 5 — is at least the dynamic
threshold `0.5·(1 − creditsSoFar/targetCreditLoad)`. -/
theorem c5_acceptance_rule (requirements : CurriculumRequirements)
    (targetCredits maxCreditLoad : ℚ) (s : SelStateV2) (courseRec : RecommendedCourse)
    (hstop : s.stopped = false) :
    (stepV2 requirements targetCredits maxCreditLoad s courseRec).selected =
        s.selected ++ [courseRec] ↔
      ((s.totalCredits + courseRec.Course.CreditHours ≤ targetCredits ∨
        (s.totalCredits < 36 ∧
          s.totalCredits + courseRec.Course.CreditHours ≤ maxCreditLoad)) ∧
       countLookup s.subdomainCount courseRec.Course.SubdomainID < 3 ∧
       0.5 * (1 - s.totalCredits / targetCredits) ≤
         0.3 * (((difference courseRec.Course.TeachesCompetencies
             s.coveredCompetencies).length : ℚ) / 5) +
           0.3 * distributionValueV2 requirements s courseRec +
           0.4 * courseRec.FitScore) := by
  have hne : s.selected ≠ s.selected ++ [courseRec] := by
    intro habs
    have := congrArg List.length habs
    simp at this
  unfold stepV2
  rw [if_neg (by rw [hstop]; exact Bool.false_ne_true)]
  split_ifs with h2 h3 h4
  · constructor
    · intro habs
      exact absurd habs hne
    · rintro ⟨hcredit, -, -⟩
      rcases hcredit with hcredit | ⟨hfloor, hload⟩
      · exact absurd h2.1 hcredit.not_lt
      · rcases h2.2 with hge | hover
        · exact absurd hge hfloor.not_le
        · exact absurd hover hload.not_lt
  · constructor
    · intro habs
      exact absurd habs hne
    · rintro ⟨-, hcap, -⟩
      exact absurd h3 hcap.not_le
  · constructor
    · intro habs
      exact absurd habs hne
    · rintro ⟨-, -, hmarg⟩
      have : marginalValueV2 requirements s courseRec =
          0.3 * (((difference courseRec.Course.TeachesCompetencies
            s.coveredCompetencies).length : ℚ) / 5) +
          0.3 * distributionValueV2 requirements s courseRec + 0.4 * courseRec.FitScore := rfl
      rw [← this] at hmarg
      have : acceptanceThresholdV2 targetCredits s =
          0.5 * (1 - s.totalCredits / targetCredits) := rfl
      rw [← this] at hmarg
      exact absurd h4 hmarg.not_lt
  · constructor
    · intro _
      push_neg at h2
      refine ⟨?_, by push_neg at h3; exact h3, ?_⟩
      · by_cases hcase : s.totalCredits + courseRec.Course.CreditHours ≤ targetCredits
        · exact Or.inl hcase
        · push_neg at hcase
          obtain ⟨hfloor, hload⟩ := h2 hcase
          exact Or.inr ⟨hfloor, hload⟩
      · push_neg at h4
        exact h4
    · intro _
      rfl

/-- The empty loop state of part_002's optimizer over a blank profile. -/
def st0 : SelStateV2 :=
  { selected := [], totalCredits := 0, coveredCompetencies := [],
    distributionCoverage := [], subdomainCount := [], stopped := false }

/-- A candidate teaching one new competency with fit score `0`. -/
def c5SmallRec : RecommendedCourse :=
  { blankRecommended with
    Course := { blankCourse with
      CourseID := "C5A",
      TeachesCompetencies := ["T1"] } }

/-- A candidate worth 80 credit hours with fit score `1`. -/
def c5BigRec : RecommendedCourse :=
  { blankRecommended with
    FitScore := 1,
    Course := { blankCourse with
      CourseID := "C5B",
      CreditHours := 80,
      TeachesCompetencies := ["T1"] } }

/-- C5 (counterexample). Two discrepancies with the claim at
concrete inputs: (1) for a candidate adding one new competency the code
computes `0.3·(1/5) = 0.06` for the new-skill term (total marginal
`0.12`), not the claimed `0.3·min(1,5) = 0.3` (total `0.36`); (2) with
`maxCreditLoad = 100` (target capped at 60) an 80-credit candidate is
accepted below the 36-credit floor, so acceptance does *not* require
staying within the credit target. -/
theorem c5_counterexample :
    marginalValueV2 blankRequirements st0 c5SmallRec = 12/100 ∧
    claimedMarginalValue blankRequirements st0 c5SmallRec = 36/100 ∧
    sumCredits (OptimizeCourseSetMarginal [c5BigRec] blankProfile blankRequirements 100) = 80 ∧
    min (100 : ℚ) 60 = 60 := by
  refine ⟨?_, ?_, ?_, by norm_num⟩
  · norm_num [marginalValueV2, distributionValueV2, difference, contains, mapLookup,
      st0, c5SmallRec, blankRecommended, blankCourse, blankRequirements]
  · norm_num [claimedMarginalValue, distributionValueV2, difference, contains, mapLookup,
      st0, c5SmallRec, blankRecommended, blankCourse, blankRequirements]
  · norm_num [OptimizeCourseSetMarginal, stepV2, stepV2Fallback, sumCredits,
      marginalValueV2, acceptanceThresholdV2, distributionValueV2, countLookup, countBump,
      mapAdd, difference, contains, mapLookup, getMapKeys, containsRecommendedCourse,
      c5BigRec, blankRecommended, blankCourse, blankProfile, blankRequirements]

/-- C5 (witness). The acceptance rule instantiated at the empty
state and the one-new-competency candidate. -/
theorem c5_witness :
    (stepV2 blankRequirements 60 100 st0 c5SmallRec).selected = st0.selected ++ [c5SmallRec] ↔
      ((st0.totalCredits + c5SmallRec.Course.CreditHours ≤ 60 ∨
        (st0.totalCredits < 36 ∧ st0.totalCredits + c5SmallRec.Course.CreditHours ≤ 100)) ∧
       countLookup st0.subdomainCount c5SmallRec.Course.SubdomainID < 3 ∧
       0.5 * (1 - st0.totalCredits / 60) ≤
         0.3 * (((difference c5SmallRec.Course.TeachesCompetencies
             st0.coveredCompetencies).length : ℚ) / 5) +
           0.3 * distributionValueV2 blankRequirements st0 c5SmallRec +
           0.4 * c5SmallRec.FitScore) :=
  c5_acceptance_rule blankRequirements 60 100 st0 c5SmallRec rfl

/-! ### Eligibility filtering and identifier comparison (C4) -/

/-- Go `filterCandidateCourses` from service.go: drop completed (by exact
`CourseID` equality), prerequisite-failing, and excluded courses. -/
def filterCandidateCourses (allCourses : List Course) (profile : StudentProfile)
    (constraints : Option RecommendationFilters) : List Course :=
  allCourses.filter (fun course =>
    !(contains profile.CompletedCourses course.CourseID) &&
    CheckPrerequisites course profile &&
    !(match constraints with
      | some f => contains f.ExcludeCourses course.CourseID
      | none => false))

/-- Go `isCourseCompleted` from part_003: exact ("strict") string equality
against the course id, the course code (when non-empty), and the course
name. -/
def isCourseCompleted (course : Course) (profile : StudentProfile) : Bool :=
  profile.CompletedCourses.any (fun completedCode =>
    completedCode == course.CourseID ||
    (!(course.CourseCode == "") && completedCode == course.CourseCode) ||
    completedCode == course.CourseName)

/-- Go `normalizeCode` from part_005: upper-case, strip every space and
hyphen, then trim surrounding whitespace. -/
def normalizeCode (s : String) : String :=
  String.mk (((((s.data.map Char.toUpper).filter
    (fun ch => !(ch == ' ') && !(ch == '-'))).dropWhile
      Char.isWhitespace).reverse.dropWhile Char.isWhitespace).reverse)

/-- C4 (amended). The eligibility filters that decide "already
completed" compare identifiers by *exact* string equality, not by
normalized alias-aware equality: `filterCandidateCourses` (service.go)
drops a course only when its raw `CourseID` is literally among the
completed ids, and `isCourseCompleted` (part_003) holds exactly when
some completed marker is literally the course id, the non-empty course
code, or the course name.  Only the identity-map pipeline of part_005
normalizes via `normalizeCode`. -/
theorem c4_exact_identifier_filtering (courses : List Course) (profile : StudentProfile)
    (constraints : Option RecommendationFilters) (c : Course) :
    (c ∈ filterCandidateCourses courses profile constraints →
      c.CourseID ∉ profile.CompletedCourses) ∧
    (isCourseCompleted c profile = true ↔
      ∃ completedCode ∈ profile.CompletedCourses,
        completedCode = c.CourseID ∨
          (c.CourseCode ≠ "" ∧ completedCode = c.CourseCode) ∨
          completedCode = c.CourseName) := by
  constructor
  · intro hmem habs
    have hpred := (List.mem_filter.1 hmem).2
    have hcontains : contains profile.CompletedCourses c.CourseID = true :=
      (contains_eq_mem _ _).2 habs
    rw [hcontains] at hpred
    simp at hpred
  · unfold isCourseCompleted
    rw [List.any_eq_true]
    constructor
    · rintro ⟨code, hcode, hor⟩
      refine ⟨code, hcode, ?_⟩
      rcases Bool.or_eq_true_iff.1 hor with h | h
      · rcases Bool.or_eq_true_iff.1 h with h1 | h1
        · exact Or.inl (beq_iff_eq.mp h1)
        · rw [Bool.and_eq_true] at h1
          obtain ⟨hne, heq⟩ := h1
          refine Or.inr (Or.inl ⟨?_, beq_iff_eq.mp heq⟩)
          intro habs
          rw [habs] at hne
          simp at hne
      · exact Or.inr (Or.inr (beq_iff_eq.mp h))
    · rintro ⟨code, hcode, hor⟩
      refine ⟨code, hcode, ?_⟩
      rcases hor with h | ⟨hne, h⟩ | h
      · subst h
        simp
      · subst h
        simp [hne]
      · subst h
        simp

/-- A catalog course with id `CS101`. -/
def aliasCourse : Course := { blankCourse with CourseID := "CS101" }

/-- A profile that completed the same course under the alias `cs101`. -/
def aliasProfile : StudentProfile := { blankProfile with CompletedCourses := ["cs101"] }

/-- C4 (counterexample). `cs101` and `CS101` are the same identifier
under `normalizeCode`, yet `filterCandidateCourses` keeps the `CS101`
catalog course when only `cs101` is recorded as completed — the
completed-course comparison is not normalized or alias-aware, so the
same underlying course can be recommended again. -/
theorem c4_counterexample :
    normalizeCode "cs101" = normalizeCode "CS101" ∧
    filterCandidateCourses [aliasCourse] aliasProfile none = [aliasCourse] := by
  constructor
  · rfl
  · decide

/-- A candidate course whose id is not among the completed courses. -/
def c4Course : Course := { blankCourse with CourseID := "B" }

/-- A profile that completed only course `A`. -/
def c4Profile : StudentProfile := { blankProfile with CompletedCourses := ["A"] }

/-- C4 (witness). The exact-equality filter instantiated: course `B`
survives filtering against completed list `["A"]`, hence its id is not
in that list. -/
theorem c4_witness : c4Course.CourseID ∉ c4Profile.CompletedCourses :=
  (c4_exact_identifier_filtering [c4Course] c4Profile none c4Course).1 (by decide)

/-! ### Orchestrator (service.go GenerateRecommendations) and C9 -/

/-- Go `generateReason` from service.go. -/
def generateReason (course : Course) (fitScore progressScore interestScore : ℚ) : String :=
  if 0.7 < progressScore then
    "Satisfies important graduation requirements in " ++ course.SubdomainName
  else if 0.7 < interestScore then
    "Strongly aligns with your interests in " ++ course.SubdomainName
  else if 0.8 < fitScore then
    "Excellent fit based on your competencies and academic goals"
  else
    "Good course option in " ++ course.SubdomainName ++ " that advances your degree progress"

/-- Descending insertion by fit score, modelling the Go
`sort.Slice(scored, fit i > fit j)` post-condition. -/
def insertByFitDesc (c : RecommendedCourse) : List RecommendedCourse → List RecommendedCourse
  | [] => [c]
  | x :: xs => if x.FitScore < c.FitScore then c :: x :: xs else x :: insertByFitDesc c xs

/-- Sort a scored list by descending fit score. -/
def sortByFitDesc (l : List RecommendedCourse) : List RecommendedCourse :=
  l.foldr insertByFitDesc []

/-- Go `scoreCourses` from service.go: score every candidate with the
`0.4/0.3/0.3` weighting and sort by fit score, highest first. -/
def scoreCourses (courses : List Course) (profile : StudentProfile)
    (requirements : CurriculumRequirements) : List RecommendedCourse :=
  sortByFitDesc (courses.map (fun course =>
    let compScore := CalculateCompetencyMatchScore course profile
    let interestScore := CalculateInterestScore course profile
    let progressScore := CalculateProgramProgressScore course profile requirements
    let fitScore := 0.4 * compScore + 0.3 * interestScore + 0.3 * progressScore
    { Course := course, FitScore := fitScore,
      CompetencyMatchScore := compScore, InterestAlignmentScore := interestScore,
      ProgramProgressScore := progressScore,
      MatchedCompetencies := GetMatchedCompetencies course profile,
      MissingCompetencies := GetMissingCompetencies course profile,
      Reason := generateReason course fitScore progressScore interestScore }))

/-- Go `calculateTotalCredits` from service.go. -/
def calculateTotalCredits (courses : List RecommendedCourse) : ℚ :=
  courses.foldl (fun total c => total + c.Course.CreditHours) 0

/-- Go `calculateDistributionCoverage` from service.go. -/
def calculateDistributionCoverage (courses : List RecommendedCourse) : List (String × ℚ) :=
  courses.foldl (fun coverage c => mapAdd coverage c.Course.SubdomainID c.Course.CreditHours) []

/-- Go `GenerateRecommendations` from service.go.  The two upstream fetches
(`GetStudentProfile`, `GetCourseCatalog`) are external I/O, so their
outcomes enter as `Except` parameters; the Go wrapping
`fmt.Errorf("failed to fetch X: %w", err)` becomes string prefixing.
Generation metadata (wall-clock timestamps) is omitted. -/
def GenerateRecommendations (req : RecommendationRequest)
    (profileRes : Except String StudentProfile)
    (catalogRes : Except String CourseCatalogResponse) : Except String RecommendationSet :=
  match profileRes with
  | .error e => .error ("failed to fetch student profile: " ++ e)
  | .ok profileFetched =>
    match catalogRes with
    | .error e => .error ("failed to fetch course catalog: " ++ e)
    | .ok catalog =>
      let studentProfile := { profileFetched with
        Semester := req.Semester, MaxCreditLoad := req.MaxCreditLoad }
      let requirements : CurriculumRequirements :=
        { CurriculumVersion := studentProfile.CurriculumVersion,
          RequiredCompetencies := studentProfile.RequiredCompetencies,
          DistributionRequirements := [("AI", 36), ("SE", 24), ("Math", 12)],
          TotalCreditsRequired := 120 }
      let profileWithInterests := { studentProfile with
        InterestWeights := InferInterestAreas studentProfile.CompletedCourses
          catalog.Courses studentProfile.Competencies }
      let candidateCourses :=
        filterCandidateCourses catalog.Courses profileWithInterests req.Constraints
      let scoredCourses := scoreCourses candidateCourses profileWithInterests requirements
      let recommendedSet :=
        OptimizeCourseSetV0 scoredCourses profileWithInterests requirements req.MaxCreditLoad
      let metrics := EvaluateRecommendationSet recommendedSet profileWithInterests requirements
      .ok { StudentID := req.StudentID, Semester := req.Semester,
            RecommendedSet := recommendedSet,
            TotalCredits := calculateTotalCredits recommendedSet,
            Metrics := metrics,
            DistributionCoverage := calculateDistributionCoverage recommendedSet,
            Status := "success" }

/-- C9. When fetching the student profile fails,
`GenerateRecommendations` returns exactly the single wrapped error
`"failed to fetch student profile: …"`; when the profile succeeds but
the catalog fetch fails it returns exactly `"failed to fetch course
catalog: …"`; and a successful result is only ever produced when both
fetches succeeded — a result is never returned alongside an error. -/
theorem c9_upstream_failure_handling (req : RecommendationRequest)
    (profileRes : Except String StudentProfile)
    (catalogRes : Except String CourseCatalogResponse) :
    (∀ e, profileRes = .error e →
      GenerateRecommendations req profileRes catalogRes =
        .error ("failed to fetch student profile: " ++ e)) ∧
    (∀ e p, profileRes = .ok p → catalogRes = .error e →
      GenerateRecommendations req profileRes catalogRes =
        .error ("failed to fetch course catalog: " ++ e)) ∧
    (∀ result, GenerateRecommendations req profileRes catalogRes = .ok result →
      (∃ p, profileRes = .ok p) ∧ (∃ cat, catalogRes = .ok cat)) := by
  refine ⟨?_, ?_, ?_⟩
  · intro e he
    subst he
    rfl
  · intro e p hp hc
    subst hp
    subst hc
    rfl
  · intro result hres
    cases profileRes with
    | error e => simp [GenerateRecommendations] at hres
    | ok p =>
      cases catalogRes with
      | error e => simp [GenerateRecommendations] at hres
      | ok cat => exact ⟨⟨p, rfl⟩, ⟨cat, rfl⟩⟩

/-- A minimal recommendation request. -/
def c9Request : RecommendationRequest :=
  { StudentID := "S1", Semester := "T1", MaxCreditLoad := 10, MaxSets := 1, Constraints := none }

/-- An empty course catalog response. -/
def c9Catalog : CourseCatalogResponse :=
  { Status := "success", Semester := "T1", CurriculumVersion := 1, Courses := [] }

/-- C9 (witness). The failure contract instantiated: a failed
profile fetch yields exactly the wrapped profile error, and a failed
catalog fetch after a successful profile fetch yields exactly the
wrapped catalog error. -/
theorem c9_witness :
    GenerateRecommendations c9Request (Except.error "boom") (Except.ok c9Catalog) =
      Except.error ("failed to fetch student profile: " ++ "boom") ∧
    GenerateRecommendations c9Request (Except.ok blankProfile) (Except.error "net") =
      Except.error ("failed to fetch course catalog: " ++ "net") :=
  ⟨(c9_upstream_failure_handling c9Request (Except.error "boom") (Except.ok c9Catalog)).1
      "boom" rfl,
   (c9_upstream_failure_handling c9Request (Except.ok blankProfile)
      (Except.error "net")).2.1 "net" blankProfile rfl rfl⟩

end A1CE
